import Mathlib

/-!
Verification development for the fastgltf JSON-to-Asset translation core
(src/fastgltf.cpp). The C++ source is shallowly embedded: the simdjson DOM
becomes an inductive `Json` type, stateful parsing routines become pure
state-passing functions on a `GlTF` record, and `size_t` values become `Nat`
with the `2^64` bound made explicit where the source relies on it.

JSON numbers are modelled as integers: none of the verified properties
depends on fractional values (`get_uint64` succeeds exactly on a
non-negative integer below `2^64`; `get_double` succeeds on any number).
`static_cast<float>` in the node-matrix loop is modelled as the identity on
these integer values, which is exact for the integer inputs used here.
-/

namespace fastgltf

/-- Shallow embedding of the simdjson DOM tree handed to the parsers.
An object is an ordered field list; lookup finds the first matching key,
matching simdjson `object[key]`. -/
inductive Json where
  | null : Json
  | bool (b : Bool) : Json
  | num (n : Int) : Json
  | str (s : String) : Json
  | arr (elems : List Json) : Json
  | obj (fields : List (String × Json)) : Json

/-- simdjson `object[key]`: the first field with the given key, or absent. -/
def lookupField : List (String × Json) → String → Option Json
  | [], _ => none
  | (k, v) :: rest, key => if k = key then some v else lookupField rest key

/-- simdjson `element.get_object()`: succeeds only on a JSON object. -/
def Json.getObject : Json → Option (List (String × Json))
  | .obj fields => some fields
  | _ => none

/-- simdjson `element.get_array()`: succeeds only on a JSON array. -/
def Json.getArray : Json → Option (List Json)
  | .arr elems => some elems
  | _ => none

/-- simdjson `element.get_uint64()`: succeeds only on a non-negative
integer below `2^64`. -/
def Json.getUInt : Json → Option Nat
  | .num n => if 0 ≤ n ∧ n < 18446744073709551616 then some n.toNat else none
  | _ => none

/-- simdjson `element.get_double()`: succeeds on any number. -/
def Json.getDouble : Json → Option Int
  | .num n => some n
  | _ => none

/-- simdjson `element.get_string()`: succeeds only on a JSON string. -/
def Json.getString : Json → Option String
  | .str s => some s
  | _ => none

/-- simdjson `element.get_bool()`: succeeds only on a JSON boolean. -/
def Json.getBool : Json → Option Bool
  | .bool b => some b
  | _ => none

/-- `object[key].get_object()` combined. -/
def getObjField (fields : List (String × Json)) (key : String) : Option (List (String × Json)) :=
  (lookupField fields key).bind Json.getObject

/-- `object[key].get_array()` combined. -/
def getArrField (fields : List (String × Json)) (key : String) : Option (List Json) :=
  (lookupField fields key).bind Json.getArray

/-- `object[key].get_uint64()` combined. -/
def getUIntField (fields : List (String × Json)) (key : String) : Option Nat :=
  (lookupField fields key).bind Json.getUInt

/-- `object[key].get_string()` combined. -/
def getStrField (fields : List (String × Json)) (key : String) : Option String :=
  (lookupField fields key).bind Json.getString

/-- `object[key].get_bool()` combined. -/
def getBoolField (fields : List (String × Json)) (key : String) : Option Bool :=
  (lookupField fields key).bind Json.getBool

/-- fastgltf::Error (fastgltf_parser.hpp, used throughout fastgltf.cpp). -/
inductive Error where
  | None
  | InvalidPath
  | InvalidJson
  | InvalidOrMissingAssetField
  | InvalidGltf
  deriving DecidableEq

/-- The caller-supplied options bitmask; each recognized bit becomes a
boolean field, and `hasBit(options, Options::X)` becomes the field `x`. -/
structure Options where
  loadKTXExtension : Bool := false
  loadDDSExtension : Bool := false
  dontUseSIMD : Bool := false
  allowDouble : Bool := false
  dontRequireValidAssetMember : Bool := false
  deriving DecidableEq

/-- fastgltf::MimeType, the closed MIME enumeration. -/
inductive MimeType where
  | None
  | JPEG
  | PNG
  | KTX2
  | DDS
  | GltfBuffer
  | OctetStream
  deriving DecidableEq

/-- fastgltf::DataLocation: which variant of a data source is active. -/
inductive DataLocation where
  | None
  | VectorWithMime
  | BufferViewWithMime
  | FilePathWithByteRange
  deriving DecidableEq

/-- fastgltf::DataSource: the source struct with one field per variant
(the active one is named by the accompanying `DataLocation`). Bytes are
`Nat` values below 256. -/
structure DataSource where
  mimeType : MimeType := MimeType.None
  bytes : List Nat := []
  path : String := ""
  bufferViewIndex : Nat := 0
  deriving DecidableEq

/-- `std::numeric_limits<size_t>::max()`, the unset-image-index sentinel. -/
def sizeTMax : Nat := 18446744073709551615

/-- Modelled from the spec: the base64 alphabet value of a character
(RFC 4648); characters outside the alphabet are rejected. The base64
primitive itself (base64_decode.hpp) is not part of the provided sources. -/
def base64DecodeChar (c : Char) : Option Nat :=
  if 'A' ≤ c ∧ c ≤ 'Z' then some (c.toNat - 65)
  else if 'a' ≤ c ∧ c ≤ 'z' then some (c.toNat - 97 + 26)
  else if '0' ≤ c ∧ c ≤ '9' then some (c.toNat - 48 + 52)
  else if c = '+' then some 62
  else if c = '/' then some 63
  else none

/-- Modelled from the spec: strict base64 decoding of a character list in
four-character groups with optional trailing padding; `none` on any input
that is not valid base64 (wrong length, stray characters). -/
def base64DecodeChunks : List Char → Option (List Nat)
  | [] => some []
  | a :: b :: c :: d :: rest =>
    match base64DecodeChar a, base64DecodeChar b with
    | some va, some vb =>
      if c = '=' ∧ d = '=' ∧ rest = [] then
        some [va * 4 + vb / 16]
      else
        match base64DecodeChar c with
        | some vc =>
          if d = '=' ∧ rest = [] then
            some [va * 4 + vb / 16, (vb % 16) * 16 + vc / 4]
          else
            match base64DecodeChar d, base64DecodeChunks rest with
            | some vd, some tail =>
              some ((va * 4 + vb / 16) :: ((vb % 16) * 16 + vc / 4) :: ((vc % 4) * 64 + vd) :: tail)
            | _, _ => none
        | none => none
    | _, _ => none
  | _ => none

/-- Modelled from the spec: `base64::decode`, the SIMD-selected path of the
pure base64 primitive (bytes → bytes). On input that is not valid base64 the
primitive's behaviour is unspecified; the model returns no bytes. -/
def base64_decode (encoded : List Char) : List Nat :=
  (base64DecodeChunks encoded).getD []

/-- Modelled from the spec: `base64::fallback_decode`, the scalar path,
functionally interchangeable with `base64_decode`. -/
def base64_fallback_decode (encoded : List Char) : List Nat :=
  (base64DecodeChunks encoded).getD []

/-- The base64 character for a sextet (RFC 4648 alphabet); used only to
state the round-trip property, not by the parser. -/
def base64EncodeChar (n : Nat) : Char :=
  if n < 26 then Char.ofNat (65 + n)
  else if n < 52 then Char.ofNat (97 + (n - 26))
  else if n < 62 then Char.ofNat (48 + (n - 52))
  else if n = 62 then '+'
  else '/'

/-- Standard base64 encoding of a byte list (RFC 4648, with padding); used
only to state the round-trip property. -/
def base64Encode : List Nat → List Char
  | [] => []
  | [x] => [base64EncodeChar (x / 4), base64EncodeChar (x % 4 * 16), '=', '=']
  | [x, y] => [base64EncodeChar (x / 4), base64EncodeChar (x % 4 * 16 + y / 16),
      base64EncodeChar (y % 16 * 4), '=']
  | x :: y :: z :: rest =>
    base64EncodeChar (x / 4) :: base64EncodeChar (x % 4 * 16 + y / 16) ::
      base64EncodeChar (y % 16 * 4 + z / 64) :: base64EncodeChar (z % 64) ::
        base64Encode rest

/-- `std::string_view::find(target, start)`: index of the first occurrence
at or after `start`, scanning from offset `i`. -/
def strFindAux : List Char → Char → Nat → Option Nat
  | [], _, _ => none
  | c :: rest, target, i => if c = target then some i else strFindAux rest target (i + 1)

/-- `std::string_view::find(target, start)` over the whole list. -/
def strFindFrom (s : List Char) (target : Char) (start : Nat) : Option Nat :=
  match strFindAux (s.drop start) target 0 with
  | none => none
  | some i => some (start + i)

/-- glTF::getMimeTypeFromString (fastgltf.cpp): exact, case-sensitive
matches of the six recognized MIME strings. -/
def getMimeTypeFromString (mime : String) : MimeType :=
  if mime = "image/jpeg" then MimeType.JPEG
  else if mime = "image/png" then MimeType.PNG
  else if mime = "image/ktx2" then MimeType.KTX2
  else if mime = "image/vnd-ms.dds" then MimeType.DDS
  else if mime = "application/gltf-buffer" then MimeType.GltfBuffer
  else if mime = "application/octet-stream" then MimeType.OctetStream
  else MimeType.None

/-- glTF::decodeUri (fastgltf.cpp lines 133-165). Note the source passes
`uri.substr(encodingEnd)` — the payload handed to the base64 primitive
starts at (and includes) the comma. -/
def decodeUri (options : Options) (directory : String) (uri : String) :
    Error × DataSource × DataLocation :=
  let chars := uri.toList
  if chars.take 4 = "data".toList then
    match strFindFrom chars ';' 0 with
    | none => (Error.InvalidGltf, {}, DataLocation.None)
    | some index =>
      match strFindFrom chars ',' (index + 1) with
      | none => (Error.InvalidGltf, {}, DataLocation.None)
      | some encodingEnd =>
        let encoding := (chars.drop (index + 1)).take (encodingEnd - index - 1)
        if encoding = "base64".toList then
          let encodedData := chars.drop encodingEnd
          let uriData :=
            if options.dontUseSIMD then base64_fallback_decode encodedData
            else base64_decode encodedData
          let mime := getMimeTypeFromString (String.mk ((chars.drop 5).take (index - 5)))
          (Error.None, { mimeType := mime, bytes := uriData }, DataLocation.VectorWithMime)
        else
          (Error.InvalidGltf, {}, DataLocation.None)
  else
    (Error.None, { path := directory ++ "/" ++ uri }, DataLocation.FilePathWithByteRange)

/-- fastgltf::Buffer. -/
structure Buffer where
  byteLength : Nat := 0
  data : DataSource := {}
  location : DataLocation := DataLocation.None
  name : String := ""
  deriving DecidableEq

/-- fastgltf::BufferView. -/
structure BufferView where
  bufferIndex : Nat := 0
  byteOffset : Nat := 0
  byteLength : Nat := 0
  byteStride : Option Nat := none
  target : Option Nat := none
  name : String := ""
  deriving DecidableEq

/-- fastgltf::ComponentType. `getComponentType` is declared in a header not
among the provided sources; the enumeration is modelled from the spec:
"componentType restricted to the 5 glTF numeric kinds plus double". -/
inductive ComponentType where
  | Invalid
  | Byte
  | UnsignedByte
  | Short
  | UnsignedShort
  | UnsignedInt
  | Float
  | Double
  deriving DecidableEq

/-- fastgltf::AccessorType (scalar/vector/matrix kind). -/
inductive AccessorType where
  | Invalid
  | Scalar
  | Vec2
  | Vec3
  | Vec4
  | Mat2
  | Mat3
  | Mat4
  deriving DecidableEq

/-- Modelled from the spec: `getComponentType`, mapping the glTF numeric
component-type codes onto the enumeration (the function lives in a header
not among the provided sources; the codes are the standard glTF ones plus
the double extension code). -/
def getComponentType (code : Nat) : ComponentType :=
  if code = 5120 then ComponentType.Byte
  else if code = 5121 then ComponentType.UnsignedByte
  else if code = 5122 then ComponentType.Short
  else if code = 5123 then ComponentType.UnsignedShort
  else if code = 5125 then ComponentType.UnsignedInt
  else if code = 5126 then ComponentType.Float
  else if code = 5130 then ComponentType.Double
  else ComponentType.Invalid

/-- Modelled from the spec: `getAccessorType`, mapping the glTF type
strings onto the enumeration (declared in a header not among the provided
sources). -/
def getAccessorType (s : String) : AccessorType :=
  if s = "SCALAR" then AccessorType.Scalar
  else if s = "VEC2" then AccessorType.Vec2
  else if s = "VEC3" then AccessorType.Vec3
  else if s = "VEC4" then AccessorType.Vec4
  else if s = "MAT2" then AccessorType.Mat2
  else if s = "MAT3" then AccessorType.Mat3
  else if s = "MAT4" then AccessorType.Mat4
  else AccessorType.Invalid

/-- fastgltf::Accessor. -/
structure Accessor where
  componentType : ComponentType := ComponentType.Invalid
  type : AccessorType := AccessorType.Invalid
  count : Nat := 0
  bufferViewIndex : Option Nat := none
  byteOffset : Nat := 0
  normalized : Bool := false
  name : String := ""
  deriving DecidableEq

/-- fastgltf::Image. -/
structure Image where
  data : DataSource := {}
  location : DataLocation := DataLocation.None
  name : String := ""
  deriving DecidableEq

/-- fastgltf::Texture. `imageIndex` carries the `size_t` max sentinel while
unset, exactly as in the source. -/
structure Texture where
  imageIndex : Nat := 0
  fallbackImageIndex : Option Nat := none
  samplerIndex : Option Nat := none
  name : String := ""
  deriving DecidableEq

/-- fastgltf::Primitive. `type` holds the raw glTF mode number (the source
merely casts it to its PrimitiveType enum). The attributes map is an
ordered association list with `operator[]` replace-or-append semantics. -/
structure Primitive where
  attributes : List (String × Nat) := []
  type : Nat := 0
  indicesAccessor : Option Nat := none
  materialIndex : Option Nat := none
  deriving DecidableEq

/-- fastgltf::Mesh. -/
structure Mesh where
  primitives : List Primitive := []
  name : String := ""
  deriving DecidableEq

/-- fastgltf::Node. The matrix is the 16-component column-major array,
zero-initialized by `Node node = {}`. -/
structure Node where
  meshIndex : Option Nat := none
  children : List Nat := []
  hasMatrix : Bool := false
  matrix : List Int := List.replicate 16 0
  name : String := ""
  deriving DecidableEq

/-- fastgltf::Scene. -/
structure Scene where
  nodeIndices : List Nat := []
  name : String := ""
  deriving DecidableEq

/-- fastgltf::Asset: the collections filled by the entity parsers. -/
structure Asset where
  buffers : List Buffer := []
  bufferViews : List BufferView := []
  accessors : List Accessor := []
  images : List Image := []
  textures : List Texture := []
  meshes : List Mesh := []
  nodes : List Node := []
  scenes : List Scene := []
  defaultScene : Option Nat := none
  deriving DecidableEq

/-- The glTF object's state: the DOM root, the base directory, the options,
the Asset under construction and the sticky error code. -/
structure GlTF where
  root : List (String × Json)
  directory : String := ""
  options : Options := {}
  parsedAsset : Asset := {}
  errorCode : Error := Error.None

/-- The fresh glTF state produced by `loadGLTF` for a parsed document. -/
def initGlTF (root : List (String × Json)) (options : Options) (directory : String) : GlTF :=
  { root := root, directory := directory, options := options }

/-- The loop body of `iterateOverArray`: runs the callback on each element,
threading the mutable state; stops at the first callback that returns
false, keeping the state mutations made so far. -/
def iterateList {σ : Type} (callback : Json → σ → σ × Bool) : List Json → σ → σ × Bool
  | [], s => (s, true)
  | e :: rest, s =>
    match callback e s with
    | (s', true) => iterateList callback rest s'
    | (s', false) => (s', false)

/-- fg::iterateOverArray (fastgltf.cpp lines 55-76): array absent or not an
array → `(false, None)`; some element's callback returned false →
`(false, InvalidGltf)`; all elements accepted → `(true, None)`. -/
def iterateOverArray {σ : Type} (parent : List (String × Json)) (arrayName : String)
    (callback : Json → σ → σ × Bool) (s : σ) : σ × Bool × Error :=
  match getArrField parent arrayName with
  | none => (s, false, Error.None)
  | some elems =>
    match iterateList callback elems s with
    | (s', true) => (s', true, Error.None)
    | (s', false) => (s', false, Error.InvalidGltf)

/-- fg::getImageIndexForExtension (fastgltf.cpp lines 36-53), returning
`(invalidGltf, extensionNotPresent, imageIndex)`: key absent or not an
object → `(false, true, 0)`; nested object without a numeric `source` →
`(true, false, 0)`; nested object with numeric `source` →
`(false, false, index)`. -/
def getImageIndexForExtension (object : List (String × Json)) (extension : String) :
    Bool × Bool × Nat :=
  match getObjField object extension with
  | none => (false, true, 0)
  | some sourceExtensionObject =>
    match getUIntField sourceExtensionObject "source" with
    | none => (true, false, 0)
    | some imageIndex => (false, false, imageIndex)

/-- fg::parseTextureExtensions (fastgltf.cpp lines 78-104): tries
KHR_texture_basisu then MSFT_texture_dds, each only when its option bit is
set; the first extension found supplying a source wins. -/
def parseTextureExtensions (texture : Texture) (extensions : List (String × Json))
    (options : Options) : Texture × Bool :=
  let ktx := getImageIndexForExtension extensions "KHR_texture_basisu"
  if options.loadKTXExtension ∧ ktx.1 then (texture, false)
  else if options.loadKTXExtension ∧ ¬ktx.2.1 then ({ texture with imageIndex := ktx.2.2 }, true)
  else
    let dds := getImageIndexForExtension extensions "MSFT_texture_dds"
    if options.loadDDSExtension ∧ dds.1 then (texture, false)
    else if options.loadDDSExtension ∧ ¬dds.2.1 then ({ texture with imageIndex := dds.2.2 }, true)
    else (texture, false)

/-- The glTF::parseBuffers element callback (fastgltf.cpp lines 202-238). -/
def bufferCallback (value : Json) (g : GlTF) : GlTF × Bool :=
  match value.getObject with
  | none => (g, false)
  | some bufferObject =>
    match getUIntField bufferObject "byteLength" with
    | none => (g, false)
    | some byteLength =>
      let buffer : Buffer := { byteLength := byteLength }
      let step :=
        match getStrField bufferObject "uri" with
        | some uri =>
          let (error, source, location) := decodeUri g.options g.directory uri
          if error ≠ Error.None then none
          else some { buffer with data := source, location := location }
        | none => some buffer
      match step with
      | none => (g, false)
      | some buffer =>
        if buffer.location = DataLocation.None then (g, false)
        else
          let buffer :=
            match getStrField bufferObject "name" with
            | some name => { buffer with name := name }
            | none => buffer
          ({ g with parsedAsset :=
              { g.parsedAsset with buffers := g.parsedAsset.buffers ++ [buffer] } }, true)

/-- glTF::parseBuffers (fastgltf.cpp lines 200-245). -/
def parseBuffers (g : GlTF) : GlTF :=
  let (g', found, bufferError) := iterateOverArray g.root "buffers" bufferCallback g
  if ¬found ∧ bufferError ≠ Error.None then { g' with errorCode := bufferError } else g'

/-- The glTF::parseBufferViews element callback (fastgltf.cpp 249-290). -/
def bufferViewCallback (value : Json) (g : GlTF) : GlTF × Bool :=
  match value.getObject with
  | none => (g, false)
  | some bufferViewObject =>
    match getUIntField bufferViewObject "buffer" with
    | none => (g, false)
    | some bufferIndex =>
      match getUIntField bufferViewObject "byteLength" with
      | none => (g, false)
      | some byteLength =>
        let view : BufferView :=
          { bufferIndex := bufferIndex
            byteLength := byteLength
            byteOffset := (getUIntField bufferViewObject "byteOffset").getD 0
            byteStride := getUIntField bufferViewObject "byteStride"
            target := getUIntField bufferViewObject "target"
            name := (getStrField bufferViewObject "name").getD "" }
        ({ g with parsedAsset :=
            { g.parsedAsset with bufferViews := g.parsedAsset.bufferViews ++ [view] } }, true)

/-- glTF::parseBufferViews (fastgltf.cpp lines 247-296). -/
def parseBufferViews (g : GlTF) : GlTF :=
  let (g', found, viewError) := iterateOverArray g.root "bufferViews" bufferViewCallback g
  if ¬found ∧ viewError ≠ Error.None then { g' with errorCode := viewError } else g'

/-- The glTF::parseAccessors element callback (fastgltf.cpp 300-351). -/
def accessorCallback (value : Json) (g : GlTF) : GlTF × Bool :=
  match value.getObject with
  | none => (g, false)
  | some accessorObject =>
    match getUIntField accessorObject "componentType" with
    | none => (g, false)
    | some componentTypeCode =>
      let componentType := getComponentType componentTypeCode
      if componentType = ComponentType.Double ∧ ¬g.options.allowDouble then (g, false)
      else
        match getStrField accessorObject "type" with
        | none => (g, false)
        | some accessorType =>
          match getUIntField accessorObject "count" with
          | none => (g, false)
          | some count =>
            let accessor : Accessor :=
              { componentType := componentType
                type := getAccessorType accessorType
                count := count
                bufferViewIndex := getUIntField accessorObject "bufferView"
                byteOffset := (getUIntField accessorObject "byteOffset").getD 0
                normalized := (getBoolField accessorObject "normalized").getD false
                name := (getStrField accessorObject "name").getD "" }
            ({ g with parsedAsset :=
                { g.parsedAsset with accessors := g.parsedAsset.accessors ++ [accessor] } }, true)

/-- glTF::parseAccessors (fastgltf.cpp lines 298-357). -/
def parseAccessors (g : GlTF) : GlTF :=
  let (g', found, accessorError) := iterateOverArray g.root "accessors" accessorCallback g
  if ¬found ∧ accessorError ≠ Error.None then { g' with errorCode := accessorError } else g'

/-- The glTF::parseImages element callback (fastgltf.cpp 361-411). Note
that the bufferView branch records the index and MIME type on the data
source but never assigns `image.location`, exactly as in the source. -/
def imageCallback (value : Json) (g : GlTF) : GlTF × Bool :=
  match value.getObject with
  | none => (g, false)
  | some imageObject =>
    let image : Image := {}
    let uriStep :=
      match getStrField imageObject "uri" with
      | some uri =>
        if (lookupField imageObject "bufferView").isSome then none
        else
          let (error, source, location) := decodeUri g.options g.directory uri
          if error ≠ Error.None then none
          else
            let image := { image with data := source, location := location }
            match getStrField imageObject "mimeType" with
            | some mimeType =>
              some { image with data :=
                { image.data with mimeType := getMimeTypeFromString mimeType } }
            | none => some image
      | none => some image
    match uriStep with
    | none => (g, false)
    | some image =>
      let bufferViewStep :=
        match getUIntField imageObject "bufferView" with
        | some bufferViewIndex =>
          match getStrField imageObject "mimeType" with
          | none => none
          | some mimeType =>
            some { image with data :=
              { image.data with
                  bufferViewIndex := bufferViewIndex
                  mimeType := getMimeTypeFromString mimeType } }
        | none => some image
      match bufferViewStep with
      | none => (g, false)
      | some image =>
        if image.location = DataLocation.None then (g, false)
        else
          let image :=
            match getStrField imageObject "name" with
            | some name => { image with name := name }
            | none => image
          ({ g with parsedAsset :=
              { g.parsedAsset with images := g.parsedAsset.images ++ [image] } }, true)

/-- glTF::parseImages (fastgltf.cpp lines 359-417). -/
def parseImages (g : GlTF) : GlTF :=
  let (g', found, imageError) := iterateOverArray g.root "images" imageCallback g
  if ¬found ∧ imageError ≠ Error.None then { g' with errorCode := imageError } else g'

/-- The glTF::parseTextures element callback (fastgltf.cpp 421-468). -/
def textureCallback (value : Json) (g : GlTF) : GlTF × Bool :=
  match value.getObject with
  | none => (g, false)
  | some textureObject =>
    let extensions := getObjField textureObject "extensions"
    let hasExtensions := extensions.isSome
    let texture : Texture :=
      { imageIndex := (getUIntField textureObject "source").getD sizeTMax }
    if (getUIntField textureObject "source").isNone ∧ ¬hasExtensions then (g, false)
    else
      let extStep :=
        if hasExtensions then
          let texture :=
            if texture.imageIndex ≠ sizeTMax then
              { texture with fallbackImageIndex := some texture.imageIndex }
            else texture
          let (texture, ok) := parseTextureExtensions texture (extensions.getD []) g.options
          if ok then some texture else none
        else some texture
      match extStep with
      | none => (g, false)
      | some texture =>
        let texture := { texture with samplerIndex := getUIntField textureObject "sampler" }
        let texture :=
          match getStrField textureObject "name" with
          | some name => { texture with name := name }
          | none => texture
        ({ g with parsedAsset :=
            { g.parsedAsset with textures := g.parsedAsset.textures ++ [texture] } }, true)

/-- glTF::parseTextures (fastgltf.cpp lines 419-475). -/
def parseTextures (g : GlTF) : GlTF :=
  let (g', found, textureError) := iterateOverArray g.root "textures" textureCallback g
  if ¬found ∧ textureError ≠ Error.None then { g' with errorCode := textureError } else g'

/-- `primitive.attributes[key] = value`: map insert-or-overwrite on the
ordered association list. -/
def insertAttr : List (String × Nat) → String → Nat → List (String × Nat)
  | [], key, v => [(key, v)]
  | (k, old) :: rest, key, v =>
    if k = key then (k, v) :: rest else (k, old) :: insertAttr rest key v

/-- The attributes loop of the primitive callback (fastgltf.cpp 504-511):
every key is accepted, every value must be a non-negative integer. -/
def parseAttributes : List (String × Json) → List (String × Nat) → Option (List (String × Nat))
  | [], acc => some acc
  | (key, v) :: rest, acc =>
    match v.getUInt with
    | none => none
    | some n => parseAttributes rest (insertAttr acc key n)

/-- The nested primitives callback of glTF::parseMeshes (fastgltf.cpp
487-535); the state is the mesh's primitive list. -/
def primitiveCallback (value : Json) (primitives : List Primitive) :
    List Primitive × Bool :=
  match value.getObject with
  | none => (primitives, false)
  | some primitiveObject =>
    match getObjField primitiveObject "attributes" with
    | none => (primitives, false)
    | some attributesObject =>
      match parseAttributes attributesObject [] with
      | none => (primitives, false)
      | some attributes =>
        let primitive : Primitive :=
          { attributes := attributes
            type := (getUIntField primitiveObject "mode").getD 4
            indicesAccessor := getUIntField primitiveObject "indices"
            materialIndex := getUIntField primitiveObject "material" }
        (primitives ++ [primitive], true)

/-- The glTF::parseMeshes element callback (fastgltf.cpp 479-549); on a
primitive failure it records InvalidGltf on the glTF state before
returning false, as the source does. -/
def meshCallback (value : Json) (g : GlTF) : GlTF × Bool :=
  match value.getObject with
  | none => (g, false)
  | some meshObject =>
    let (primitives, foundPrimitives, primitiveError) :=
      iterateOverArray meshObject "primitives" primitiveCallback []
    if ¬foundPrimitives ∧ primitiveError ≠ Error.None then
      ({ g with errorCode := Error.InvalidGltf }, false)
    else
      let mesh : Mesh :=
        { primitives := primitives, name := (getStrField meshObject "name").getD "" }
      ({ g with parsedAsset :=
          { g.parsedAsset with meshes := g.parsedAsset.meshes ++ [mesh] } }, true)

/-- glTF::parseMeshes (fastgltf.cpp lines 477-556). -/
def parseMeshes (g : GlTF) : GlTF :=
  let (g', found, meshError) := iterateOverArray g.root "meshes" meshCallback g
  if ¬found ∧ meshError ≠ Error.None then { g' with errorCode := meshError } else g'

/-- The nested children callback of glTF::parseNodes (fastgltf.cpp
572-580); the state is the node under construction. -/
def childCallback (value : Json) (node : Node) : Node × Bool :=
  match value.getUInt with
  | none => (node, false)
  | some index => ({ node with children := node.children ++ [index] }, true)

/-- The matrix loop of glTF::parseNodes (fastgltf.cpp 589-597). The source
initializes the write index `i` to 0 and never increments it, so every
numeric entry is written to matrix component 0; the first non-numeric
entry clears `hasMatrix` and stops the loop. -/
def matrixLoop (node : Node) : List Json → Node
  | [] => node
  | e :: rest =>
    match e.getDouble with
    | none => { node with hasMatrix := false }
    | some val => matrixLoop { node with matrix := node.matrix.set 0 val } rest

/-- The per-node body of the glTF::parseNodes element callback (fastgltf.cpp
561-609), producing the built node and the callback's boolean result. The
children check reproduces the source's `foundChildren && childrenError !=
Error::None` condition verbatim. -/
def parseNodeObject (nodeObject : List (String × Json)) : Node × Bool :=
  let node : Node := { meshIndex := getUIntField nodeObject "mesh" }
  let (node, foundChildren, childrenError) :=
    iterateOverArray nodeObject "children" childCallback node
  if foundChildren ∧ childrenError ≠ Error.None then (node, false)
  else
    let node :=
      match getArrField nodeObject "matrix" with
      | none => node
      | some matrix => matrixLoop { node with hasMatrix := true } matrix
    let node :=
      match getStrField nodeObject "name" with
      | some name => { node with name := name }
      | none => node
    (node, true)

/-- The glTF::parseNodes element callback (fastgltf.cpp 560-610). -/
def nodeCallback (value : Json) (g : GlTF) : GlTF × Bool :=
  match value.getObject with
  | none => (g, false)
  | some nodeObject =>
    match parseNodeObject nodeObject with
    | (_, false) => (g, false)
    | (node, true) =>
      ({ g with parsedAsset :=
          { g.parsedAsset with nodes := g.parsedAsset.nodes ++ [node] } }, true)

/-- glTF::parseNodes (fastgltf.cpp lines 558-616). -/
def parseNodes (g : GlTF) : GlTF :=
  let (g', found, nodeError) := iterateOverArray g.root "nodes" nodeCallback g
  if ¬found ∧ nodeError ≠ Error.None then { g' with errorCode := nodeError } else g'

/-- The nested node-index callback of glTF::parseScenes (fastgltf.cpp
641-649); the state is the scene's index list. -/
def sceneNodeCallback (value : Json) (indices : List Nat) : List Nat × Bool :=
  match value.getUInt with
  | none => (indices, false)
  | some index => (indices ++ [index], true)

/-- The glTF::parseScenes element callback (fastgltf.cpp 626-658); on a
nested node-index failure it records the error on the glTF state before
returning false, as the source does. -/
def sceneCallback (value : Json) (g : GlTF) : GlTF × Bool :=
  match value.getObject with
  | none => (g, false)
  | some sceneObject =>
    let name := (getStrField sceneObject "name").getD ""
    let (indices, foundNodes, nodeError) :=
      iterateOverArray sceneObject "nodes" sceneNodeCallback []
    if ¬foundNodes ∧ nodeError ≠ Error.None then
      ({ g with errorCode := nodeError }, false)
    else
      ({ g with parsedAsset :=
          { g.parsedAsset with
              scenes := g.parsedAsset.scenes ++ [{ nodeIndices := indices, name := name }] } },
        true)

/-- glTF::parseScenes (fastgltf.cpp lines 618-666), including the
independent read of the top-level default-scene index. -/
def parseScenes (g : GlTF) : GlTF :=
  let g :=
    match getUIntField g.root "scene" with
    | some defaultScene =>
      { g with parsedAsset := { g.parsedAsset with defaultScene := some defaultScene } }
    | none => g
  let (g', found, sceneError) := iterateOverArray g.root "scenes" sceneCallback g
  if ¬found ∧ sceneError ≠ Error.None then { g' with errorCode := sceneError } else g'

/-- glTF::checkAssetField (fastgltf.cpp lines 115-131). -/
def checkAssetField (g : GlTF) : GlTF × Bool :=
  match getObjField g.root "asset" with
  | none => ({ g with errorCode := Error.InvalidOrMissingAssetField }, false)
  | some asset =>
    match getStrField asset "version" with
    | none => ({ g with errorCode := Error.InvalidOrMissingAssetField }, false)
    | some _ => (g, true)

/-- glTF::getParsedAsset (fastgltf.cpp lines 185-191): a recorded error
withholds the asset entirely. -/
def getParsedAsset (g : GlTF) : Option Asset :=
  if g.errorCode ≠ Error.None then none else some g.parsedAsset

/-- The seven entity parsers run in the spec's fixed dependency order
(buffers, bufferViews, accessors, images, textures, meshes, nodes,
scenes). -/
def parseAll (g : GlTF) : GlTF :=
  parseScenes (parseNodes (parseMeshes (parseTextures
    (parseImages (parseAccessors (parseBufferViews (parseBuffers g)))))))

/-- A whole parse of one document: the facade's asset-field check (unless
opted out) followed by the entity parsers in order. -/
def parseDocument (root : List (String × Json)) (options : Options) (directory : String) : GlTF :=
  let g := initGlTF root options directory
  if ¬options.dontRequireValidAssetMember then
    let (g, ok) := checkAssetField g
    if ok then parseAll g else g
  else parseAll g

/-! ## Concrete test fixtures -/

/-- Options with both texture-source extensions enabled. -/
def bothExtensionsEnabled : Options :=
  { loadKTXExtension := true, loadDDSExtension := true }

/-- A document whose single node has a children array with a non-numeric
entry. -/
def childFailureDoc : List (String × Json) :=
  [("nodes", Json.arr [Json.obj [("children", Json.arr [Json.str "x"])]])]

/-- A node object whose matrix array has a single numeric entry. -/
def shortMatrixNode : List (String × Json) :=
  [("matrix", Json.arr [Json.num 5])]

/-- A node object whose matrix array holds one non-numeric entry. -/
def mixedMatrixNode : List (String × Json) :=
  [("matrix", Json.arr [Json.num 1, Json.str "x"])]

/-- A node object whose matrix array is the 16 numbers 1..16. -/
def sixteenMatrixNode : List (String × Json) :=
  [("matrix", Json.arr
    [Json.num 1, Json.num 2, Json.num 3, Json.num 4,
     Json.num 5, Json.num 6, Json.num 7, Json.num 8,
     Json.num 9, Json.num 10, Json.num 11, Json.num 12,
     Json.num 13, Json.num 14, Json.num 15, Json.num 16])]

/-- A document whose single texture has a base source and an extensions
object that supplies nothing. -/
def baseSourceTextureDoc : List (String × Json) :=
  [("textures", Json.arr [Json.obj [("source", Json.num 0), ("extensions", Json.obj [])]])]

/-- An extensions object whose basis-universal entry is a number (not an
object) and whose DDS entry supplies source 2. -/
def nonObjectBasisuExtensions : List (String × Json) :=
  [("KHR_texture_basisu", Json.num 5),
   ("MSFT_texture_dds", Json.obj [("source", Json.num 2)])]

/-- An extensions object where both recognized extensions supply distinct
numeric sources. -/
def dualSourceExtensions : List (String × Json) :=
  [("KHR_texture_basisu", Json.obj [("source", Json.num 1)]),
   ("MSFT_texture_dds", Json.obj [("source", Json.num 2)])]

/-- The spec's fixed minimal buffer document. -/
def minimalBufferDoc : List (String × Json) :=
  [("asset", Json.obj [("version", Json.str "2.0")]),
   ("buffers", Json.arr [Json.obj
     [("byteLength", Json.num 10),
      ("uri", Json.str "data:application/octet-stream;base64,AAAAAAAAAAAAAA==")]])]

/-- An image object carrying both a uri and a bufferView. -/
def bothSetImage : List (String × Json) :=
  [("uri", Json.str "image.png"), ("bufferView", Json.num 0)]

/-- An image object carrying neither a uri nor a bufferView. -/
def neitherSetImage : List (String × Json) :=
  [("name", Json.str "empty")]

/-- An image object carrying a bufferView but no mimeType. -/
def bufferViewNoMimeImage : List (String × Json) :=
  [("bufferView", Json.num 0)]

/-- A document whose buffers array holds a non-object element, so its
parse records InvalidGltf. -/
def failingBuffersDoc : List (String × Json) :=
  [("asset", Json.obj [("version", Json.str "2.0")]),
   ("buffers", Json.arr [Json.num 3])]

/-! ## Supporting lemmas -/

/-- The only verdicts `iterateOverArray` can deliver: absent array, full
success, or an element failure. In particular `found = true` never comes
with an error, which makes the `foundChildren && childrenError !=
Error::None` check in parseNodes dead code. -/
theorem iterateOverArray_verdicts {σ : Type} (parent : List (String × Json))
    (arrayName : String) (callback : Json → σ → σ × Bool) (s : σ) :
    (iterateOverArray parent arrayName callback s).2 = (false, Error.None) ∨
    (iterateOverArray parent arrayName callback s).2 = (true, Error.None) ∨
    (iterateOverArray parent arrayName callback s).2 = (false, Error.InvalidGltf) := by
  unfold iterateOverArray
  cases getArrField parent arrayName with
  | none => simp
  | some elems =>
    dsimp only
    rcases iterateList callback elems s with ⟨s', b⟩
    cases b <;> simp

/-- The boolean verdict of `parseTextureExtensions` does not depend on the
texture record it threads through. -/
theorem parseTextureExtensions_snd (t t' : Texture) (extensions : List (String × Json))
    (options : Options) :
    (parseTextureExtensions t extensions options).2 =
      (parseTextureExtensions t' extensions options).2 := by
  unfold parseTextureExtensions
  dsimp only
  split_ifs <;> rfl

/-- The final hasMatrix flag of the source's matrix loop: starting from a
node with the flag set, the loop keeps it exactly when every remaining
entry parses as a number. -/
theorem matrixLoop_hasMatrix (es : List Json) (node : Node) (h : node.hasMatrix = true) :
    (matrixLoop node es).hasMatrix = es.all (fun e => (Json.getDouble e).isSome) := by
  induction es generalizing node with
  | nil => simpa [matrixLoop] using h
  | cons e rest ih =>
    cases he : e.getDouble with
    | none => simp [matrixLoop, he]
    | some val =>
      have hrec := ih { node with matrix := node.matrix.set 0 val } h
      simp [matrixLoop, he, hrec]

/-- Decoding the base64 character of any sextet recovers the sextet. -/
theorem base64DecodeChar_encodeChar :
    ∀ n < 64, base64DecodeChar (base64EncodeChar n) = some n := by decide

/-- No sextet encodes to the padding character. -/
theorem base64EncodeChar_ne_pad (n : Nat) (h : n < 64) : base64EncodeChar n ≠ '=' := by
  intro he
  have hd := base64DecodeChar_encodeChar n h
  have hpad : base64DecodeChar '=' = none := by decide
  rw [he, hpad] at hd
  exact Option.noConfusion hd

/-- The modelled strict decoder inverts the encoder on byte lists. -/
theorem base64DecodeChunks_encode :
    ∀ B : List Nat, (∀ b ∈ B, b < 256) → base64DecodeChunks (base64Encode B) = some B
  | [], _ => rfl
  | [x], h => by
    have hx : x < 256 := h x (by simp)
    have h1 := base64DecodeChar_encodeChar (x / 4) (by omega)
    have h2 := base64DecodeChar_encodeChar (x % 4 * 16) (by omega)
    simp only [base64Encode, base64DecodeChunks, h1, h2]
    simp
    omega
  | [x, y], h => by
    have hx : x < 256 := h x (by simp)
    have hy : y < 256 := h y (by simp)
    have h1 := base64DecodeChar_encodeChar (x / 4) (by omega)
    have h2 := base64DecodeChar_encodeChar (x % 4 * 16 + y / 16) (by omega)
    have h3 := base64DecodeChar_encodeChar (y % 16 * 4) (by omega)
    simp only [base64Encode, base64DecodeChunks, h1, h2, h3]
    rw [if_neg (by
      intro hc
      exact base64EncodeChar_ne_pad (y % 16 * 4) (by omega) hc.1)]
    simp
    omega
  | x :: y :: z :: rest, h => by
    have hx : x < 256 := h x (by simp)
    have hy : y < 256 := h y (by simp)
    have hz : z < 256 := h z (by simp)
    have hrest : ∀ b ∈ rest, b < 256 := fun b hb => h b (by simp [hb])
    have h1 := base64DecodeChar_encodeChar (x / 4) (by omega)
    have h2 := base64DecodeChar_encodeChar (x % 4 * 16 + y / 16) (by omega)
    have h3 := base64DecodeChar_encodeChar (y % 16 * 4 + z / 64) (by omega)
    have h4 := base64DecodeChar_encodeChar (z % 64) (by omega)
    have ih := base64DecodeChunks_encode rest hrest
    simp only [base64Encode, base64DecodeChunks, h1, h2, h3, h4, ih]
    rw [if_neg (by
      intro hc
      exact base64EncodeChar_ne_pad (y % 16 * 4 + z / 64) (by omega) hc.1)]
    rw [if_neg (by
      intro hc
      exact base64EncodeChar_ne_pad (z % 64) (by omega) hc.1)]
    simp
    omega

/-- The modelled primitive round-trips: decoding the base64 encoding of
any byte list gives the bytes back. -/
theorem base64_decode_encode (B : List Nat) (h : ∀ b ∈ B, b < 256) :
    base64_decode (base64Encode B) = B := by
  unfold base64_decode
  rw [base64DecodeChunks_encode B h]
  rfl

/-- A leading character outside the base64 alphabet makes the strict
decoder reject the whole input. -/
theorem base64DecodeChunks_cons_invalid (a : Char) (rest : List Char)
    (h : base64DecodeChar a = none) : base64DecodeChunks (a :: rest) = none := by
  match rest with
  | [] => rfl
  | [_] => rfl
  | [_, _] => rfl
  | _ :: _ :: _ :: _ => simp only [base64DecodeChunks, h]

/-- The character list of a string built from a character list. -/
theorem toList_mk (l : List Char) : (String.mk l).toList = l := rfl

/-! ## Claim theorems -/

/-- C1: a node's children array containing a non-numeric entry is required
to fail the whole parse with InvalidGltf. The code instead drops the
failure: the nested iteration does report `(false, InvalidGltf)`, but
parseNodes tests `foundChildren && childrenError != Error::None`
(fastgltf.cpp line 582) — a condition that can never hold — so the full
parse of the document succeeds with no error and the node is kept with an
empty children list. -/
theorem C1_children_failure_not_fatal :
    iterateOverArray [("children", Json.arr [Json.str "x"])] "children" childCallback ({} : Node)
      = ({}, false, Error.InvalidGltf)
    ∧ (parseAll (initGlTF childFailureDoc {} "")).errorCode = Error.None
    ∧ (parseAll (initGlTF childFailureDoc {} "")).parsedAsset.nodes = [{}]
    ∧ getParsedAsset (parseAll (initGlTF childFailureDoc {} "")) = some { nodes := [{}] } := by
  refine ⟨by decide, by decide, by decide, by decide⟩

/-- C2 counterexample: the claim says hasMatrix is true only if all 16
matrix components parsed as numbers, but the code never checks the array
length: a matrix array with a single numeric entry (not 16) still sets
hasMatrix. -/
theorem C2_short_matrix_sets_hasMatrix :
    (parseNodeObject shortMatrixNode).1.hasMatrix = true
    ∧ (parseNodeObject shortMatrixNode).2 = true
    ∧ [Json.num 5].length ≠ 16 := by
  refine ⟨by decide, by decide, by decide⟩

/-- C3: the claim says the i-th JSON matrix entry becomes the i-th matrix
component. The loop index is initialized to 0 and never incremented
(fastgltf.cpp lines 589-596), so every entry is written to component 0:
parsing the matrix 1..16 leaves the node's matrix as [16, 0, ..., 0], not
[1, 2, ..., 16]. -/
theorem C3_matrix_written_to_component_zero :
    (parseNodeObject sixteenMatrixNode).1.matrix = (16 : Int) :: List.replicate 15 0
    ∧ (parseNodeObject sixteenMatrixNode).1.hasMatrix = true
    ∧ (parseNodeObject sixteenMatrixNode).1.matrix
        ≠ [1, 2, 3, 4, 5, 6, 7, 8, 9, 10, 11, 12, 13, 14, 15, 16] := by
  refine ⟨by decide, by decide, by decide⟩

/-- C4 counterexample: the claim says that when no enabled extension
supplies a source, texture parsing succeeds exactly when the base `source`
field was present. With a base source present and an extensions object
that supplies nothing, the texture array parse nevertheless fails with
InvalidGltf and no texture is kept. -/
theorem C4_base_source_still_rejected :
    (parseTextures (initGlTF baseSourceTextureDoc bothExtensionsEnabled "")).errorCode
      = Error.InvalidGltf
    ∧ (parseTextures (initGlTF baseSourceTextureDoc bothExtensionsEnabled "")).parsedAsset.textures
      = [] := by
  refine ⟨by decide, by decide⟩

/-- C5 counterexample: the claim says a recognized, enabled extension key
whose value is not a JSON object makes the whole texture parse fail. The
code instead treats it as absent: with a non-object basis-universal entry
and a well-formed DDS entry, the texture is accepted and takes the DDS
source. -/
theorem C5_nonobject_extension_not_fatal :
    (textureCallback (Json.obj [("extensions", Json.obj nonObjectBasisuExtensions)])
        (initGlTF [] bothExtensionsEnabled "")).2 = true
    ∧ (textureCallback (Json.obj [("extensions", Json.obj nonObjectBasisuExtensions)])
        (initGlTF [] bothExtensionsEnabled "")).1.parsedAsset.textures.map Texture.imageIndex
      = [2] := by
  refine ⟨by decide, by decide⟩

/-- C7: the claim says base64-encoding any byte sequence B into a data URI
and resolving it through decodeUri returns exactly B, identically under
both code paths. The modelled primitive alone does round-trip, but
decodeUri hands it `uri.substr(encodingEnd)` — the payload including the
leading comma (fastgltf.cpp line 148) — so for every non-empty B both code
paths resolve the URI without error yet return no bytes at all, never B. -/
theorem C7_roundtrip_broken (B : List Nat) (hB : ∀ b ∈ B, b < 256) (hne : B ≠ []) :
    base64_decode (base64Encode B) = B
    ∧ (∀ o : Options,
        decodeUri o ""
            (String.mk ("data:application/octet-stream;base64,".toList ++ base64Encode B))
          = (Error.None,
             { mimeType := MimeType.OctetStream, bytes := [] },
             DataLocation.VectorWithMime))
    ∧ (decodeUri {} ""
        (String.mk ("data:application/octet-stream;base64,".toList ++ base64Encode B))).2.1.bytes
      ≠ B := by
  have hinv : base64DecodeChunks (',' :: base64Encode B) = none :=
    base64DecodeChunks_cons_invalid ',' _ (by decide)
  have key : ∀ o : Options,
      decodeUri o ""
          (String.mk ("data:application/octet-stream;base64,".toList ++ base64Encode B))
        = (Error.None,
           { mimeType := MimeType.OctetStream, bytes := [] },
           DataLocation.VectorWithMime) := by
    intro o
    unfold decodeUri
    dsimp only
    rw [toList_mk]
    rw [if_pos (show List.take 4 ("data:application/octet-stream;base64,".toList
        ++ base64Encode B) = "data".toList from rfl)]
    rw [show strFindFrom ("data:application/octet-stream;base64,".toList
        ++ base64Encode B) ';' 0 = some 29 from rfl]
    dsimp only
    rw [show strFindFrom ("data:application/octet-stream;base64,".toList
        ++ base64Encode B) ',' (29 + 1) = some 36 from rfl]
    dsimp only
    rw [if_pos (show List.take (36 - 29 - 1) (List.drop (29 + 1)
        ("data:application/octet-stream;base64,".toList ++ base64Encode B))
        = "base64".toList from rfl)]
    rw [show List.drop 36 ("data:application/octet-stream;base64,".toList
        ++ base64Encode B) = ',' :: base64Encode B from rfl]
    unfold base64_decode base64_fallback_decode
    rw [hinv]
    rw [show getMimeTypeFromString (String.mk (List.take (29 - 5) (List.drop 5
        ("data:application/octet-stream;base64,".toList ++ base64Encode B))))
        = MimeType.OctetStream from rfl]
    cases o.dontUseSIMD <;> simp
  refine ⟨base64_decode_encode B hB, key, ?_⟩
  rw [key {}]
  exact fun hc => hne hc.symm

/-- C7 witness: the round-trip failure at the concrete byte list [0],
whose data URI carries the payload "AA==". -/
theorem C7_roundtrip_broken_witness :
    base64_decode (base64Encode [0]) = [0]
    ∧ decodeUri {} ""
        (String.mk ("data:application/octet-stream;base64,".toList ++ base64Encode [0]))
      = (Error.None,
         { mimeType := MimeType.OctetStream, bytes := [] },
         DataLocation.VectorWithMime)
    ∧ decodeUri { dontUseSIMD := true } ""
        (String.mk ("data:application/octet-stream;base64,".toList ++ base64Encode [0]))
      = (Error.None,
         { mimeType := MimeType.OctetStream, bytes := [] },
         DataLocation.VectorWithMime)
    ∧ (decodeUri {} ""
        (String.mk ("data:application/octet-stream;base64,".toList
          ++ base64Encode [0]))).2.1.bytes ≠ [0] := by
  obtain ⟨h1, h2, h3⟩ := C7_roundtrip_broken [0] (by decide) (by decide)
  exact ⟨h1, h2 {}, h2 { dontUseSIMD := true }, h3⟩

/-- C8: the claim's fixed scenario. Parsing the minimal document succeeds
and yields one buffer with byteLength 10, location VectorWithMime and the
octet-stream MIME type — but the decoded byte vector is empty, not of
length 10, because the base64 primitive receives the 17-character payload
",AAAAAAAAAAAAAA==" including the comma; the primitive decodes the true
16-character payload to exactly 10 zero bytes. -/
theorem C8_fixed_scenario :
    (parseDocument minimalBufferDoc {} "").errorCode = Error.None
    ∧ (parseDocument minimalBufferDoc {} "").parsedAsset.buffers
      = [{ byteLength := 10
           data := { mimeType := MimeType.OctetStream, bytes := [] }
           location := DataLocation.VectorWithMime }]
    ∧ base64_decode "AAAAAAAAAAAAAA==".toList = List.replicate 10 0 := by
  refine ⟨by decide, by decide, by decide⟩

/-- C2 (amended): for every node object whose matrix field is an array,
the built node's hasMatrix flag is true exactly when every entry of the
array parses as a number — the code imposes no 16-entry requirement — and
the node callback still succeeds (an invalid matrix degrades to "no
transform", never a parse failure). -/
theorem C2_hasMatrix_iff_entries_numeric (nodeObject : List (String × Json)) (es : List Json)
    (h : getArrField nodeObject "matrix" = some es) :
    (parseNodeObject nodeObject).2 = true
    ∧ (parseNodeObject nodeObject).1.hasMatrix
      = es.all (fun e => (Json.getDouble e).isSome) := by
  have hv := iterateOverArray_verdicts nodeObject "children" childCallback
    ({ meshIndex := getUIntField nodeObject "mesh" } : Node)
  unfold parseNodeObject
  dsimp only
  rcases hch : iterateOverArray nodeObject "children" childCallback
      { meshIndex := getUIntField nodeObject "mesh" } with ⟨node', found, err⟩
  rw [hch] at hv
  dsimp only at hv ⊢
  have hcond : ¬(found = true ∧ ¬err = Error.None) := by
    rcases hv with hv | hv | hv <;> simp_all
  rw [if_neg hcond, h]
  have hm := matrixLoop_hasMatrix es { node' with hasMatrix := true } rfl
  cases getStrField nodeObject "name" <;> simp [hm]

/-- C2 witness: the amended statement at a concrete matrix array holding
one number and one string: the callback succeeds and hasMatrix is false. -/
theorem C2_hasMatrix_iff_entries_numeric_witness :
    (parseNodeObject mixedMatrixNode).2 = true
    ∧ (parseNodeObject mixedMatrixNode).1.hasMatrix
      = [Json.num 1, Json.str "x"].all (fun e => (Json.getDouble e).isSome) :=
  C2_hasMatrix_iff_entries_numeric mixedMatrixNode [Json.num 1, Json.str "x"] rfl

/-- C4 (amended): for every texture object carrying an extensions object,
if the extension dispatch establishes no image index (no enabled extension
supplies a numeric source), the texture callback rejects the texture —
regardless of whether the base source field was present. -/
theorem C4_extension_dispatch_failure_rejects (fields extensions : List (String × Json))
    (g : GlTF)
    (hext : getObjField fields "extensions" = some extensions)
    (hfail : (parseTextureExtensions {} extensions g.options).2 = false) :
    textureCallback (Json.obj fields) g = (g, false) := by
  unfold textureCallback
  dsimp only [Json.getObject]
  rw [hext]
  dsimp only [Option.isSome]
  rcases hpte : parseTextureExtensions
      { imageIndex := (getUIntField fields "source").getD sizeTMax,
        fallbackImageIndex :=
          if (getUIntField fields "source").getD sizeTMax ≠ sizeTMax then
            some ((getUIntField fields "source").getD sizeTMax)
          else none }
      extensions g.options with ⟨tex', ok⟩
  have hok : ok = false := by
    have hsnd := parseTextureExtensions_snd
      { imageIndex := (getUIntField fields "source").getD sizeTMax,
        fallbackImageIndex :=
          if (getUIntField fields "source").getD sizeTMax ≠ sizeTMax then
            some ((getUIntField fields "source").getD sizeTMax)
          else none }
      {} extensions g.options
    rw [hpte, hfail] at hsnd
    exact hsnd
  subst hok
  cases hsrc : getUIntField fields "source" <;>
    simp [hsrc, Option.getD] at hpte ⊢ <;>
    split_ifs at hpte ⊢ <;>
    simp_all

/-- C4 witness: the amended statement at the concrete texture object with
base source 0 and an empty extensions object, both extensions enabled. -/
theorem C4_extension_dispatch_failure_rejects_witness :
    textureCallback (Json.obj [("source", Json.num 0), ("extensions", Json.obj [])])
        (initGlTF [] bothExtensionsEnabled "")
      = (initGlTF [] bothExtensionsEnabled "", false) :=
  C4_extension_dispatch_failure_rejects
    [("source", Json.num 0), ("extensions", Json.obj [])] [] _ rfl (by decide)

/-- C5 (amended): a recognized, enabled extension key whose value is
present but is not a JSON object is skipped as if absent — dispatch
proceeds to the next extension rather than failing the texture: with a
non-object basis-universal entry and a DDS entry supplying source n, the
dispatcher succeeds with image index n. -/
theorem C5_nonobject_extension_skipped (extensions : List (String × Json)) (v : Json)
    (ddsObject : List (String × Json)) (n : Nat) (t : Texture) (options : Options)
    (hktx : options.loadKTXExtension = true) (hdds : options.loadDDSExtension = true)
    (hv : lookupField extensions "KHR_texture_basisu" = some v)
    (hvo : v.getObject = none)
    (hd : lookupField extensions "MSFT_texture_dds" = some (Json.obj ddsObject))
    (hsrc : getUIntField ddsObject "source" = some n) :
    parseTextureExtensions t extensions options = ({ t with imageIndex := n }, true) := by
  have hktxres : getImageIndexForExtension extensions "KHR_texture_basisu" = (false, true, 0) := by
    unfold getImageIndexForExtension getObjField
    rw [hv]
    simp [hvo]
  have hddsres : getImageIndexForExtension extensions "MSFT_texture_dds" = (false, false, n) := by
    unfold getImageIndexForExtension getObjField
    rw [hd]
    simp [Json.getObject, hsrc]
  unfold parseTextureExtensions
  rw [hktxres, hddsres]
  simp [hktx, hdds]

/-- C5 witness: the amended statement at the concrete extensions object
whose basis-universal entry is the number 5 and whose DDS entry supplies
source 2. -/
theorem C5_nonobject_extension_skipped_witness :
    parseTextureExtensions {} nonObjectBasisuExtensions bothExtensionsEnabled
      = ({ imageIndex := 2 }, true) :=
  C5_nonobject_extension_skipped nonObjectBasisuExtensions (Json.num 5)
    [("source", Json.num 2)] 2 {} bothExtensionsEnabled rfl rfl rfl rfl rfl rfl

/-- C6: when both recognized extensions are enabled and both nested
objects supply (distinct) numeric sources, the dispatcher resolves to the
basis-universal source: basis-universal is tried first and dispatch stops
at the first match. -/
theorem C6_basisu_priority (extensions : List (String × Json))
    (basisuObject ddsObject : List (String × Json)) (m n : Nat) (t : Texture)
    (options : Options)
    (hktx : options.loadKTXExtension = true) (hdds : options.loadDDSExtension = true)
    (hb : lookupField extensions "KHR_texture_basisu" = some (Json.obj basisuObject))
    (hbs : getUIntField basisuObject "source" = some m)
    (hd : lookupField extensions "MSFT_texture_dds" = some (Json.obj ddsObject))
    (hds : getUIntField ddsObject "source" = some n)
    (hne : m ≠ n) :
    parseTextureExtensions t extensions options = ({ t with imageIndex := m }, true) := by
  have hktxres : getImageIndexForExtension extensions "KHR_texture_basisu" = (false, false, m) := by
    unfold getImageIndexForExtension getObjField
    rw [hb]
    simp [Json.getObject, hbs]
  unfold parseTextureExtensions
  rw [hktxres]
  simp [hktx]

/-- C6 witness: the priority statement at the concrete extensions object
supplying basis-universal source 1 and DDS source 2. -/
theorem C6_basisu_priority_witness :
    parseTextureExtensions {} dualSourceExtensions bothExtensionsEnabled
      = ({ imageIndex := 1 }, true) :=
  C6_basisu_priority dualSourceExtensions [("source", Json.num 1)] [("source", Json.num 2)]
    1 2 {} bothExtensionsEnabled rfl rfl rfl rfl rfl rfl (by decide)

/-- C9: an image object with both uri and bufferView set is rejected, one
with neither set is rejected, and one with a bufferView but no mimeType
string is rejected — in every case the image callback fails, which aborts
the images array parse with InvalidGltf. -/
theorem C9_image_rejections (fields : List (String × Json)) (g : GlTF)
    (h : ((getStrField fields "uri").isSome ∧ (lookupField fields "bufferView").isSome)
       ∨ ((lookupField fields "uri").isNone ∧ (lookupField fields "bufferView").isNone)
       ∨ ((getUIntField fields "bufferView").isSome ∧ (getStrField fields "mimeType").isNone)) :
    imageCallback (Json.obj fields) g = (g, false) := by
  unfold imageCallback
  dsimp only [Json.getObject]
  rcases h with ⟨h1, h2⟩ | ⟨h1, h2⟩ | ⟨h1, h2⟩
  · rcases Option.isSome_iff_exists.mp h1 with ⟨uri, hu⟩
    rw [hu]
    simp [h2]
  · have hu : getStrField fields "uri" = none := by
      unfold getStrField
      rw [Option.isNone_iff_eq_none.mp h1]
      rfl
    have hbv : getUIntField fields "bufferView" = none := by
      unfold getUIntField
      rw [Option.isNone_iff_eq_none.mp h2]
      rfl
    simp [hu, hbv, Image.location]
  · rcases Option.isSome_iff_exists.mp h1 with ⟨idx, hbv⟩
    have hmt : getStrField fields "mimeType" = none := Option.isNone_iff_eq_none.mp h2
    have hlk : (lookupField fields "bufferView").isSome := by
      unfold getUIntField at hbv
      cases hl : lookupField fields "bufferView" with
      | none => rw [hl] at hbv; simp at hbv
      | some v => simp
    cases hu : getStrField fields "uri" with
    | some uri => simp [hu, hlk]
    | none => simp [hu, hbv, hmt]

/-- C9 witness: the rejection statement applied at three concrete image
objects, one per rejected shape. -/
theorem C9_image_rejections_witness :
    imageCallback (Json.obj bothSetImage) (initGlTF [] {} "") = (initGlTF [] {} "", false)
    ∧ imageCallback (Json.obj neitherSetImage) (initGlTF [] {} "") = (initGlTF [] {} "", false)
    ∧ imageCallback (Json.obj bufferViewNoMimeImage) (initGlTF [] {} "")
      = (initGlTF [] {} "", false) :=
  ⟨C9_image_rejections bothSetImage _ (Or.inl ⟨by decide, by decide⟩),
   C9_image_rejections neitherSetImage _ (Or.inr (Or.inl ⟨by decide, by decide⟩)),
   C9_image_rejections bufferViewNoMimeImage _ (Or.inr (Or.inr ⟨by decide, by decide⟩))⟩

/-- C10: for every document and option set, once the parse has recorded a
fatal error the asset cannot be retrieved, and an asset is handed out only
when the error code is None — never a partially built one. -/
theorem C10_no_partial_asset (root : List (String × Json)) (options : Options)
    (directory : String) :
    ((parseDocument root options directory).errorCode ≠ Error.None →
        getParsedAsset (parseDocument root options directory) = none)
    ∧ ∀ a : Asset, getParsedAsset (parseDocument root options directory) = some a →
        (parseDocument root options directory).errorCode = Error.None
        ∧ a = (parseDocument root options directory).parsedAsset := by
  constructor
  · intro h
    simp [getParsedAsset, h]
  · intro a ha
    by_cases h : (parseDocument root options directory).errorCode = Error.None
    · unfold getParsedAsset at ha
      rw [if_neg (by simp [h])] at ha
      exact ⟨h, (Option.some_injective _ ha).symm⟩
    · unfold getParsedAsset at ha
      rw [if_pos h] at ha
      simp at ha

/-- C10 witness: a document whose buffers array fails records InvalidGltf,
and retrieval of the asset returns nothing. -/
theorem C10_no_partial_asset_witness :
    getParsedAsset (parseDocument failingBuffersDoc {} "") = none :=
  (C10_no_partial_asset failingBuffersDoc {} "").1 (by decide)

end fastgltf
